import Mathlib

set_option maxRecDepth 4000

/-!
Shallow embedding of `src/public/test-chatbase-convo-formatted.py`.

The program fetches chatbot conversations over HTTP, parses the JSON body,
normalizes it into a list of conversation records, renders each record into a
speaker-labeled transcript, and either prints the result or writes it to a
file.  The network fetch itself is modelled as an abstract `FetchOutcome`
(HTTP error / JSON decode error / parsed body); everything downstream of the
fetch is embedded directly from the source.
-/

/-- Parsed JSON values, as produced by Python's `response.json()`.
Numbers are modelled as integers (no claim depends on float formatting). -/
inductive Json where
  | null : Json
  | bool : Bool → Json
  | num : Int → Json
  | str : String → Json
  | arr : List Json → Json
  | obj : List (String × Json) → Json

/-- Python exceptions that the embedded code can raise. -/
inductive PyErr where
  | attributeError : String → PyErr
  | typeError : String → PyErr
  | keyError : String → PyErr
deriving DecidableEq, Repr

/-- First-match association-list lookup: `dict.get`/`dict[k]` key resolution
(Python dicts parsed from JSON have unique keys, so first match is exact). -/
def jLookup : List (String × Json) → String → Option Json
  | [], _ => none
  | (k, v) :: rest, key => if k = key then some v else jLookup rest key

/-- Python truthiness of a parsed-JSON value (`if x:`). -/
def Json.truthy : Json → Bool
  | .null => false
  | .bool b => b
  | .num n => n != 0
  | .str s => !s.data.isEmpty
  | .arr xs => !xs.isEmpty
  | .obj kvs => !kvs.isEmpty

/-- `v.get(key, dflt)` — `AttributeError` on non-dicts. -/
def pyGet (v : Json) (key : String) (dflt : Json) : Except PyErr Json :=
  match v with
  | .obj kvs => .ok ((jLookup kvs key).getD dflt)
  | _ => .error (.attributeError "object has no attribute get")

/-- Is the char-list `pat` an initial segment of the char-list `l`? -/
def listIsPre : List Char → List Char → Bool
  | [], _ => true
  | _ :: _, [] => false
  | a :: as, b :: bs => a == b && listIsPre as bs

/-- Does the char-list `pat` occur anywhere inside `l`? -/
def subAt (pat : List Char) : List Char → Bool
  | [] => listIsPre pat []
  | c :: rest => listIsPre pat (c :: rest) || subAt pat rest

/-- Substring test on strings (Python `pat in s` for strings). -/
def strContainsSub (s pat : String) : Bool := subAt pat.data s.data

/-- `key in v` — key membership for dicts, element membership for lists,
substring test for strings, `TypeError` otherwise. -/
def pyIn (key : String) (v : Json) : Except PyErr Bool :=
  match v with
  | .obj kvs => .ok (jLookup kvs key).isSome
  | .arr xs => .ok (xs.any fun x => match x with | .str s => s = key | _ => false)
  | .str s => .ok (strContainsSub s key)
  | _ => .error (.typeError "argument is not iterable")

/-- `v[key]` — `KeyError` for a missing dict key, `TypeError` on non-dicts. -/
def pySubscript (v : Json) (key : String) : Except PyErr Json :=
  match v with
  | .obj kvs =>
    match jLookup kvs key with
    | some x => .ok x
    | none => .error (.keyError key)
  | _ => .error (.typeError "object is not subscriptable")

/-- Python `str.lower`, modelled character-wise. -/
def pyStrLower (s : String) : String := String.mk (s.data.map Char.toLower)

/-- Python `str.upper`, modelled character-wise. -/
def pyStrUpper (s : String) : String := String.mk (s.data.map Char.toUpper)

/-- `v.lower()` — only strings have `.lower`. -/
def pyLower (v : Json) : Except PyErr String :=
  match v with
  | .str s => .ok (pyStrLower s)
  | _ => .error (.attributeError "object has no attribute lower")

/-- `len(v)` — `TypeError` on values without a length. -/
def pyLen (v : Json) : Except PyErr Nat :=
  match v with
  | .arr xs => .ok xs.length
  | .obj kvs => .ok kvs.length
  | .str s => .ok s.data.length
  | _ => .error (.typeError "object has no len")

/-- `for x in v` — lists yield elements, dicts their keys, strings their
characters; `TypeError` otherwise. -/
def pyIter (v : Json) : Except PyErr (List Json) :=
  match v with
  | .arr xs => .ok xs
  | .obj kvs => .ok (kvs.map fun p => .str p.1)
  | .str s => .ok (s.data.map fun c => .str (String.mk [c]))
  | _ => .error (.typeError "object is not iterable")

mutual
/-- Python `repr` of a parsed-JSON value (string-escape subtleties of
Python's `repr` are out of scope of every claim). -/
def pyRepr : Json → String
  | .null => "None"
  | .bool true => "True"
  | .bool false => "False"
  | .num n => toString n
  | .str s => "'" ++ s ++ "'"
  | .arr xs => "[" ++ String.intercalate ", " (pyReprList xs) ++ "]"
  | .obj kvs => "\x7b" ++ String.intercalate ", " (pyReprObj kvs) ++ "\x7d"

def pyReprList : List Json → List String
  | [] => []
  | x :: xs => pyRepr x :: pyReprList xs

def pyReprObj : List (String × Json) → List String
  | [] => []
  | (k, v) :: kvs => ("'" ++ k ++ "': " ++ pyRepr v) :: pyReprObj kvs
end

/-- Python `str()` as used by f-string interpolation: strings verbatim,
scalars in Python spelling, containers via `repr`. -/
def pyStr : Json → String
  | .str s => s
  | .num n => toString n
  | .bool true => "True"
  | .bool false => "False"
  | .null => "None"
  | .arr xs => pyRepr (.arr xs)
  | .obj kvs => pyRepr (.obj kvs)

/-- One decimal digit character (least significant digit of `k`). -/
def digOf : Nat → Char
  | 0 => '0' | 1 => '1' | 2 => '2' | 3 => '3' | 4 => '4'
  | 5 => '5' | 6 => '6' | 7 => '7' | 8 => '8' | _ => '9'

def dig (n : Nat) : Char := digOf (n % 10)

/-- A wall-clock timestamp as stored by `datetime.fromisoformat` (the UTC
offset, when present, is validated during parsing but not stored: `strftime`
renders the wall-clock fields without any conversion). -/
structure PyDateTime where
  year : Nat
  month : Nat
  day : Nat
  hour : Nat
  minute : Nat
  second : Nat
  usec : Nat
deriving DecidableEq, Repr

def parseDigit (c : Char) : Option Nat :=
  if c.isDigit then some (c.toNat - 48) else none

def parse2 : List Char → Option (Nat × List Char)
  | a :: b :: rest =>
    match parseDigit a, parseDigit b with
    | some x, some y => some (10 * x + y, rest)
    | _, _ => none
  | _ => none

def parse4 : List Char → Option (Nat × List Char)
  | a :: b :: c :: d :: rest =>
    match parseDigit a, parseDigit b, parseDigit c, parseDigit d with
    | some x, some y, some z, some w => some (1000 * x + 100 * y + 10 * z + w, rest)
    | _, _, _, _ => none
  | _ => none

def isLeap (y : Nat) : Bool := (y % 4 == 0 && y % 100 != 0) || y % 400 == 0

def daysInMonth (y m : Nat) : Nat :=
  if m = 2 then (if isLeap y then 29 else 28)
  else if m = 4 || m = 6 || m = 9 || m = 11 then 30
  else 31

/-- Parse the leading `YYYY-MM-DD` of an ISO string, with the calendar
validation `datetime` performs. -/
def parseDate (cs : List Char) : Option (Nat × Nat × Nat × List Char) :=
  match parse4 cs with
  | none => none
  | some (y, r1) =>
    match r1 with
    | '-' :: r2 =>
      match parse2 r2 with
      | none => none
      | some (mo, r3) =>
        match r3 with
        | '-' :: r4 =>
          match parse2 r4 with
          | none => none
          | some (d, r5) =>
            if 1 ≤ y && 1 ≤ mo && mo ≤ 12 && 1 ≤ d && d ≤ daysInMonth y mo
            then some (y, mo, d, r5) else none
        | _ => none
    | _ => none

def digitsToNat (cs : List Char) : Nat :=
  cs.foldl (fun a c => a * 10 + (c.toNat - 48)) 0

/-- Parse `HH[:MM[:SS[.fff or .ffffff]]]`, consuming the whole list
(CPython's `_parse_hh_mm_ss_ff`). -/
def parseHMS (cs : List Char) : Option (Nat × Nat × Nat × Nat) :=
  match parse2 cs with
  | none => none
  | some (h, r1) =>
    match r1 with
    | [] => some (h, 0, 0, 0)
    | ':' :: r2 =>
      match parse2 r2 with
      | none => none
      | some (mi, r3) =>
        match r3 with
        | [] => some (h, mi, 0, 0)
        | ':' :: r4 =>
          match parse2 r4 with
          | none => none
          | some (sec, r5) =>
            match r5 with
            | [] => some (h, mi, sec, 0)
            | '.' :: r6 =>
              if r6.all Char.isDigit && (r6.length = 3 || r6.length = 6)
              then some (h, mi, sec,
                digitsToNat r6 * (if r6.length = 3 then 1000 else 1))
              else none
            | _ => none
        | _ => none
    | _ => none

/-- Split the time part from a UTC-offset part at the first `-` (else the
first `+`), as CPython's `_parse_isoformat_time` does. -/
def splitTz (cs : List Char) : List Char × Option (List Char) :=
  match cs.findIdx? (· = '-') with
  | some i => (cs.take i, some (cs.drop (i + 1)))
  | none =>
    match cs.findIdx? (· = '+') with
    | some i => (cs.take i, some (cs.drop (i + 1)))
    | none => (cs, none)

/-- Parse the time-of-day part with optional UTC offset; the offset is
validated (shape `HH:MM[:SS[.ffffff]]`, magnitude strictly below 24 hours)
and then dropped, since `strftime` never converts. -/
def parseTimePart (tcs : List Char) : Option (Nat × Nat × Nat × Nat) :=
  match splitTz tcs with
  | (timecs, tzrest) =>
    match parseHMS timecs with
    | none => none
    | some (h, mi, sec, us) =>
      if h ≤ 23 && mi ≤ 59 && sec ≤ 59 then
        match tzrest with
        | none => some (h, mi, sec, us)
        | some tzcs =>
          if tzcs.length = 5 || tzcs.length = 8 || tzcs.length = 15 then
            match parseHMS tzcs with
            | some (th, tm, ts, tus) =>
              if (th * 3600 + tm * 60 + ts) * 1000000 + tus < 86400000000
              then some (h, mi, sec, us) else none
            | none => none
          else none
      else none

/-- Modelled from the spec: `datetime.fromisoformat` (the standard-library
parser the program calls; it is not part of this repository).  Faithful to
its documented grammar `YYYY-MM-DD[*HH[:MM[:SS[.fff[fff]]]][+HH:MM[:SS[.ffffff]]]]`
with calendar/range validation; a parse or validation failure is `none`
(the `ValueError` the program's bare `except` swallows). -/
def pyFromIso (s : String) : Option PyDateTime :=
  match parseDate s.data with
  | none => none
  | some (y, mo, d, rest) =>
    match rest with
    | [] => some ⟨y, mo, d, 0, 0, 0, 0⟩
    | _sep :: tcs =>
      match parseTimePart tcs with
      | none => none
      | some (h, mi, sec, us) => some ⟨y, mo, d, h, mi, sec, us⟩

/-- `dt.strftime('%Y-%m-%d %H:%M:%S UTC')`: zero-padded wall-clock fields
(all fields coming from `pyFromIso` fit their widths). -/
def renderDT (dt : PyDateTime) : String :=
  String.mk
    ([dig (dt.year / 1000), dig (dt.year / 100), dig (dt.year / 10), dig dt.year,
      '-', dig (dt.month / 10), dig dt.month,
      '-', dig (dt.day / 10), dig dt.day,
      ' ', dig (dt.hour / 10), dig dt.hour,
      ':', dig (dt.minute / 10), dig dt.minute,
      ':', dig (dt.second / 10), dig dt.second,
      ' ', 'U', 'T', 'C'])

/-- `s.replace('Z', '+00:00')` — the pattern is a single character, so
Python's replace is exactly per-character substitution. -/
def zToOffset (s : String) : String :=
  String.mk (s.data.map fun c => if c = 'Z' then "+00:00".data else [c]).flatten

/-- `format_timestamp` on a string argument (lines 7-13): parse with the
trailing-`Z` workaround and render, falling back to the input on any error. -/
def format_timestamp (s : String) : String :=
  match pyFromIso (zToOffset s) with
  | some dt => renderDT dt
  | none => s

/-- `format_timestamp` as applied to an arbitrary value: a non-string makes
`timestamp.replace` raise `AttributeError`, which the bare `except` catches,
returning the argument unchanged. -/
def pyFormatTimestamp : Json → Json
  | .str s => .str (format_timestamp s)
  | v => v

example : format_timestamp "2025-11-04T10:00:00Z" = "2025-11-04 10:00:00 UTC" := by rfl
example : format_timestamp "not a date" = "not a date" := by rfl
example : format_timestamp "2025-11-04" = "2025-11-04 00:00:00 UTC" := by rfl
example : format_timestamp "2025-02-30T10:00:00" = "2025-02-30T10:00:00" := by rfl
example : format_timestamp "2025-11-04T10:00:00+05:30" = "2025-11-04 10:00:00 UTC" := by rfl

/-- `"=" * 80` -/
def sep80 : String := String.mk (List.replicate 80 '=')

/-- `"-" * 80` -/
def dash80 : String := String.mk (List.replicate 80 '-')

/-- `"#" * 80` -/
def hash80 : String := String.mk (List.replicate 80 '#')

/-- Lines 20-36 on a dict: the bordered conversation header block (without
the closing rule and blank line, which `format_conversation_lines` appends).
`conversation.get(k, d)` is `(jLookup kvs k).getD d`; each
`if 'k' in conversation: ... conversation['k'] ...` is a match on
`jLookup kvs k` — none of these can raise on a dict. -/
def headerList (kvs : List (String × Json)) : List String :=
  [sep80,
   "CONVERSATION ID: " ++ pyStr ((jLookup kvs "id").getD (.str "N/A")),
   "Session ID: " ++ pyStr ((jLookup kvs "sessionId").getD (.str "N/A"))]
  ++ (match jLookup kvs "createdAt" with
      | some v => ["Started: " ++ pyStr (pyFormatTimestamp v)]
      | none => [])
  ++ (match jLookup kvs "updatedAt" with
      | some v => ["Last Updated: " ++ pyStr (pyFormatTimestamp v)]
      | none => [])
  ++ (match jLookup kvs "source" with
      | some v => ["Source: " ++ pyStr v]
      | none => [])
  ++ (match jLookup kvs "userId" with
      | some v => ["User ID: " ++ pyStr v]
      | none => [])

/-- Lines 19-39: on a non-dict the very first access,
`conversation.get('id', 'N/A')`, raises `AttributeError`. -/
def headerLines (conversation : Json) : Except PyErr (List String) :=
  match conversation with
  | .obj kvs => .ok (headerList kvs)
  | _ => .error (.attributeError "object has no attribute get")

/-- Lines 42-44: `messages = conversation.get('messages', [])`, falling back
to the `transcript` key whenever that value is falsy. -/
def resolveMessages (conversation : Json) : Except PyErr Json := do
  let m ← pyGet conversation "messages" (.arr [])
  if m.truthy then pure m else pyGet conversation "transcript" (.arr [])

/-- Lines 52-59: the speaker label.
`message.get('role', message.get('sender', 'unknown')).lower()`, then the
two membership tests, then `.upper()` on anything else.  Raises
`AttributeError` on a non-dict message (the inner `.get`) or on a non-string
role value (`.lower`). -/
def messageSpeaker (message : Json) : Except PyErr String := do
  let sdef ← pyGet message "sender" (.str "unknown")
  let rv ← pyGet message "role" sdef
  let role ← pyLower rv
  pure (if ["user", "human"].contains role then "USER"
        else if ["assistant", "bot", "ai", "agent"].contains role then "BOT"
        else pyStrUpper role)

/-- Lines 61-77 on a dict message: content resolution (`content`, then
`message`, then `text`, then `""` — first *present* key wins), the optional
bracketed timestamp (`createdAt` first, else `timestamp`), the message
lines, and the optional feedback line.  Total on dicts. -/
def messageTail (speaker : String) (kvs : List (String × Json)) : List String :=
  let content := (jLookup kvs "content").getD
    ((jLookup kvs "message").getD ((jLookup kvs "text").getD (.str "")))
  let timestamp :=
    match jLookup kvs "createdAt" with
    | some v => " [" ++ pyStr (pyFormatTimestamp v) ++ "]"
    | none =>
      match jLookup kvs "timestamp" with
      | some v => " [" ++ pyStr (pyFormatTimestamp v) ++ "]"
      | none => ""
  ["\n[" ++ speaker ++ "]" ++ timestamp, pyStr content]
  ++ (match jLookup kvs "feedback" with
      | some v => ["  Feedback: " ++ pyStr v]
      | none => [])

/-- Lines 50-77: the lines appended for one message of the transcript. -/
def formatMessage (message : Json) : Except PyErr (List String) := do
  let speaker ← messageSpeaker message
  match message with
  | .obj kvs => pure (messageTail speaker kvs)
  | _ => .error (.attributeError "object has no attribute get")

/-- Lines 46-81: the transcript section (or the no-transcript notice). -/
def transcriptLines (msgs : Json) : Except PyErr (List String) :=
  if msgs.truthy then do
    let items ← pyIter msgs
    let body ← items.mapM formatMessage
    pure (["TRANSCRIPT:", dash80] ++ body.flatten ++ [dash80])
  else pure ["No transcript available."]

/-- `format_conversation` (lines 15-86) as the list of `lines` it builds. -/
def format_conversation_lines (conversation : Json) : Except PyErr (List String) := do
  let hdr ← headerLines conversation
  let msgs ← resolveMessages conversation
  let ts ← transcriptLines msgs
  pure (hdr ++ [sep80, ""] ++ ts ++ ["", ""])

/-- `format_conversation` (lines 15-86): `"\n".join(lines)`. -/
def format_conversation (conversation : Json) : Except PyErr String :=
  (format_conversation_lines conversation).map (String.intercalate "\n")

/-- JSON string escaping as done by `json.dumps` (the escapes no claim
exercises — control and non-ASCII characters — are left as-is). -/
def jsonEscape (s : String) : String :=
  String.mk (s.data.map fun c =>
    if c = '"' then ['\\', '"']
    else if c = '\\' then ['\\', '\\']
    else if c = '\n' then ['\\', 'n']
    else if c = '\t' then ['\\', 't']
    else if c = '\r' then ['\\', 'r']
    else [c]).flatten

def spacesN (n : Nat) : String := String.mk (List.replicate n ' ')

mutual
/-- `json.dumps(v, indent=2)` at nesting level `lvl` (empty containers stay
on one line; non-empty ones put each item on its own indented line). -/
def jsonDumpsV (lvl : Nat) : Json → String
  | .null => "null"
  | .bool true => "true"
  | .bool false => "false"
  | .num n => toString n
  | .str s => "\"" ++ jsonEscape s ++ "\""
  | .arr [] => "[]"
  | .arr (x :: xs) =>
    "[\n" ++ String.intercalate ",\n" (jsonDumpsArr (lvl + 2) (x :: xs))
      ++ "\n" ++ spacesN lvl ++ "]"
  | .obj [] => "\x7b\x7d"
  | .obj (p :: ps) =>
    "\x7b\n" ++ String.intercalate ",\n" (jsonDumpsMap (lvl + 2) (p :: ps))
      ++ "\n" ++ spacesN lvl ++ "\x7d"

def jsonDumpsArr (lvl : Nat) : List Json → List String
  | [] => []
  | x :: xs => (spacesN lvl ++ jsonDumpsV lvl x) :: jsonDumpsArr lvl xs

def jsonDumpsMap (lvl : Nat) : List (String × Json) → List String
  | [] => []
  | (k, v) :: kvs =>
    (spacesN lvl ++ "\"" ++ jsonEscape k ++ "\": " ++ jsonDumpsV lvl v)
      :: jsonDumpsMap lvl kvs
end

/-- `json.dumps(data, indent=2)` (line 140). -/
def jsonDumpsIndent2 (v : Json) : String := jsonDumpsV 0 v

/-- Lines 116-126: normalize the parsed body into the `conversations`
value (`conversations` is initialized to `[]` and left unchanged when the
body is neither a dict nor a list). -/
def normalizeBody : Json → Json
  | .obj kvs =>
    match jLookup kvs "conversations" with
    | some v => v
    | none =>
      match jLookup kvs "data" with
      | some v => v
      | none => .arr [.obj kvs]
  | .arr xs => .arr xs
  | _ => .arr []

/-- Line 130: the `FOUND n CONVERSATION(S)` banner. -/
def foundHeader (n : Nat) : String :=
  "\n" ++ sep80 ++ "\nFOUND " ++ toString n ++ " CONVERSATION(S)\n" ++ sep80 ++ "\n"

/-- Line 134: the per-conversation section banner. -/
def convHeader (idx n : Nat) : String :=
  "\n" ++ hash80 ++ "\nCONVERSATION #" ++ toString idx ++ " of " ++ toString n
    ++ "\n" ++ hash80 ++ "\n"

/-- Lines 116-140: the `output_lines` list assembled by `main` from the
parsed body (errors escaping here are caught by the outer
`except Exception`). -/
def mainOutputLines (data : Json) : Except PyErr (List String) := do
  let conversations := normalizeBody data
  if conversations.truthy then do
    let n ← pyLen conversations
    let items ← pyIter conversations
    let blocks ← (List.enumFrom 1 items).mapM fun p => do
      let fc ← format_conversation p.2
      pure [convHeader p.1 n, fc]
    pure (foundHeader n :: blocks.flatten)
  else
    pure ["\nNo conversations found for the specified date range.",
          "\nRaw API Response:",
          jsonDumpsIndent2 data]

/-- The outcome of the fetch stage (lines 110-113): a request/HTTP failure
(with the response body text when one is available), a JSON decode failure
(the response text is always in scope there), or a parsed body. -/
inductive FetchOutcome where
  | httpError : String → Option String → FetchOutcome
  | jsonError : String → String → FetchOutcome
  | body : Json → FetchOutcome

/-- Observable outcome of one invocation: process exit code, the strings
printed to stdout (in order), and the file writes performed. -/
structure RunResult where
  exitCode : Nat
  printed : List String
  fileWrites : List (String × String)
deriving DecidableEq, Repr

def pyErrMsg : PyErr → String
  | .attributeError m => m
  | .typeError m => m
  | .keyError m => m

/-- `main` (lines 88-167) downstream of the fetch.  `traceback.print_exc()`
writes to stderr, so it does not appear in `printed`. -/
def mainRun (o : FetchOutcome) (output_file : Option String) : RunResult :=
  match o with
  | .httpError msg respText =>
    { exitCode := 1,
      printed := [match respText with
        | some t => "Error fetching conversations: " ++ msg ++ "\nResponse: " ++ t
        | none => "Error fetching conversations: " ++ msg],
      fileWrites := [] }
  | .jsonError msg respText =>
    { exitCode := 1,
      printed := ["Error parsing JSON response: " ++ msg,
                  "Raw response: " ++ respText],
      fileWrites := [] }
  | .body data =>
    match mainOutputLines data with
    | .error e =>
      { exitCode := 1, printed := ["Unexpected error: " ++ pyErrMsg e], fileWrites := [] }
    | .ok ls =>
      let output_text := String.intercalate "\n" ls
      match output_file with
      | some f =>
        { exitCode := 0,
          printed := ["\n✓ Formatted transcripts saved to: " ++ f],
          fileWrites := [(f, output_text)] }
      | none =>
        { exitCode := 0, printed := [output_text], fileWrites := [] }

example : (mainRun (.body (.obj [])) none).exitCode = 0 := by rfl
example :
    strContainsSub ((mainRun (.body (.obj [])) none).printed.headD "")
      "FOUND 1 CONVERSATION(S)" = true := by decide
example :
    (mainRun (.body (.num 7)) none).printed =
    ["\nNo conversations found for the specified date range.\n\nRaw API Response:\n7"] := by rfl
example : (mainRun (.body (.arr [.num 5])) none).exitCode = 1 := by rfl

/-! ## Helper lemmas -/

theorem str_data_append (p q : String) : (p ++ q).data = p.data ++ q.data := by
  cases p
  cases q
  rfl

theorem listIsPre_append (p r : List Char) : listIsPre p (p ++ r) = true := by
  induction p with
  | nil => rfl
  | cons a as ih => simp [listIsPre, ih]

/-- Does `s` start with `p`? -/
def strStarts (s p : String) : Bool := listIsPre p.data s.data

theorem strStarts_append (p s : String) : strStarts (p ++ s) p = true := by
  unfold strStarts
  rw [str_data_append]
  exact listIsPre_append _ _

/-- Two strings whose first characters differ are not made equal by
appending to the first. -/
theorem str_append_ne_of_first (p s t : String) (a b : Char)
    (lp lt : List Char) (hp : p.data = a :: lp) (ht : t.data = b :: lt)
    (hab : a ≠ b) : p ++ s ≠ t := by
  intro h
  have hd : p.data ++ s.data = t.data := by
    rw [← str_data_append]
    exact congrArg String.data h
  rw [hp, ht, List.cons_append] at hd
  injection hd with h1 _
  exact hab h1

theorem exBindOk {α β : Type} (a : α) (f : α → Except PyErr β) :
    (Except.ok a >>= f) = f a := rfl

theorem digOf_isDigit (k : Nat) : (digOf k).isDigit = true := by
  unfold digOf
  split <;> decide

theorem charUpperBound :
    ∀ k, k < 123 → ((Char.ofNat k).toLower).toUpper = (Char.ofNat k).toUpper := by
  decide

theorem toUpper_toLower (c : Char) : (c.toLower).toUpper = c.toUpper := by
  by_cases h : c.toNat < 123
  · have := charUpperBound c.toNat h
    rwa [Char.ofNat_toNat] at this
  · have h1 : c.toLower = c := by
      unfold Char.toLower
      simp only [ge_iff_le, Bool.and_eq_true, decide_eq_true_eq, ite_eq_right_iff, and_imp]
      intro _ h2
      exact absurd (by omega) h
    rw [h1]

/-- Upper-casing after lower-casing is plain upper-casing. -/
theorem pyStrUpper_pyStrLower (s : String) :
    pyStrUpper (pyStrLower s) = pyStrUpper s := by
  unfold pyStrUpper pyStrLower
  simp [List.map_map]
  congr 1
  exact List.map_congr_left fun c _ => toUpper_toLower c

/-! ## C3 — normalization precedence -/

/-- C3: normalization of the parsed body follows exactly the precedence
`conversations` key, then `data` key, then the whole mapping as a
one-element sequence, and a sequence body is used directly; when both
`conversations` and `data` are present the first conjunct applies, so
`conversations` wins. -/
theorem normalize_body_precedence (kvs : List (String × Json)) (v : Json)
    (xs : List Json) :
    (jLookup kvs "conversations" = some v → normalizeBody (.obj kvs) = v) ∧
    (jLookup kvs "conversations" = none → jLookup kvs "data" = some v →
      normalizeBody (.obj kvs) = v) ∧
    (jLookup kvs "conversations" = none → jLookup kvs "data" = none →
      normalizeBody (.obj kvs) = .arr [.obj kvs]) ∧
    normalizeBody (.arr xs) = .arr xs := by
  refine ⟨?_, ?_, ?_, rfl⟩
  · intro h1
    simp [normalizeBody, h1]
  · intro h1 h2
    simp [normalizeBody, h1, h2]
  · intro h1 h2
    simp [normalizeBody, h1, h2]

/-- Witness for C3: both keys present (`conversations` wins), `data` alone,
a mapping with neither key, and a bare list. -/
theorem normalize_body_precedence_witness :
    normalizeBody (.obj [("data", .arr []), ("conversations", .str "w")]) = .str "w" ∧
    normalizeBody (.obj [("data", .str "d")]) = .str "d" ∧
    normalizeBody (.obj [("x", .num 1)]) = .arr [.obj [("x", .num 1)]] ∧
    normalizeBody (.arr [.num 2]) = .arr [.num 2] :=
  ⟨(normalize_body_precedence [("data", .arr []), ("conversations", .str "w")] (.str "w") []).1 (by rfl),
   (normalize_body_precedence [("data", .str "d")] (.str "d") []).2.1 (by rfl) (by rfl),
   (normalize_body_precedence [("x", .num 1)] .null []).2.2.1 (by rfl) (by rfl),
   (normalize_body_precedence [] .null [.num 2]).2.2.2⟩

/-! ## C4 — timestamp formatting -/

/-- The literal shape `YYYY-MM-DD HH:MM:SS UTC`: 23 characters, decimal
digits in the date/time positions, the fixed separators, and the trailing
`UTC`. -/
def timestampShape (t : String) : Bool :=
  match t.data with
  | [y1, y2, y3, y4, d1, m1, m2, d2, e1, e2, sp, h1, h2, c1, n1, n2, c2, s1, s2, sp2, u, t2, c3] =>
    y1.isDigit && y2.isDigit && y3.isDigit && y4.isDigit && d1 == '-' &&
    m1.isDigit && m2.isDigit && d2 == '-' && e1.isDigit && e2.isDigit &&
    sp == ' ' && h1.isDigit && h2.isDigit && c1 == ':' && n1.isDigit &&
    n2.isDigit && c2 == ':' && s1.isDigit && s2.isDigit && sp2 == ' ' &&
    u == 'U' && t2 == 'T' && c3 == 'C'
  | _ => false

theorem renderDT_shape (dt : PyDateTime) : timestampShape (renderDT dt) = true := by
  simp [timestampShape, renderDT, dig, digOf_isDigit]

/-- C4: the timestamp formatter is a total function on strings; on any
string whose `Z`-normalized form parses as an ISO-8601 timestamp it renders
the parsed wall-clock fields in the `YYYY-MM-DD HH:MM:SS UTC` shape, and on
any non-parseable string it returns the input unchanged (the bare `except`
means no exception ever escapes). -/
theorem format_timestamp_total_spec (s : String) :
    (∃ dt, pyFromIso (zToOffset s) = some dt ∧
      format_timestamp s = renderDT dt ∧
      timestampShape (format_timestamp s) = true) ∨
    (pyFromIso (zToOffset s) = none ∧ format_timestamp s = s) := by
  cases h : pyFromIso (zToOffset s) with
  | none =>
    refine Or.inr ⟨rfl, ?_⟩
    simp [format_timestamp, h]
  | some dt =>
    refine Or.inl ⟨dt, rfl, ?_, ?_⟩
    · simp [format_timestamp, h]
    · simp [format_timestamp, h, renderDT_shape]

/-! ## C10 — scalar bodies -/

/-- A parsed JSON value that is neither a mapping nor a sequence. -/
def Json.isScalar : Json → Bool
  | .null => true
  | .bool _ => true
  | .num _ => true
  | .str _ => true
  | .arr _ => false
  | .obj _ => false

/-- C10: a parsed body that is neither a mapping nor a sequence normalizes
to zero conversations, and the run succeeds with exit code 0, printing the
notice followed by the pretty-printed (indent 2) dump of the body. -/
theorem scalar_body_run (d : Json) (h : d.isScalar = true) :
    mainRun (.body d) none =
      { exitCode := 0,
        printed := ["\nNo conversations found for the specified date range."
          ++ "\n" ++ "\nRaw API Response:" ++ "\n" ++ jsonDumpsIndent2 d],
        fileWrites := [] } := by
  cases d with
  | arr xs => simp [Json.isScalar] at h
  | obj kvs => simp [Json.isScalar] at h
  | null => rfl
  | bool b => rfl
  | num n => rfl
  | str s => rfl

/-- Witness for C10 at the scalar body `7`. -/
theorem scalar_body_run_witness :
    Json.isScalar (.num 7) = true ∧
    mainRun (.body (.num 7)) none =
      { exitCode := 0,
        printed := ["\nNo conversations found for the specified date range.\n\nRaw API Response:\n7"],
        fileWrites := [] } := by
  refine ⟨by rfl, ?_⟩
  rw [scalar_body_run (.num 7) (by rfl)]
  rfl

/-! ## C5 — exit codes -/

/-- C5: exit code 1 on a request/HTTP failure and on a JSON decode failure;
exit code 0 whenever the output lines are assembled without an exception
(which includes the zero-conversation case), and 1 when assembling them
raises. -/
theorem exit_code_spec (m t : String) (rt : Option String) (f : Option String)
    (d : Json) :
    (mainRun (.httpError m rt) f).exitCode = 1 ∧
    (mainRun (.jsonError m t) f).exitCode = 1 ∧
    (∀ ls, mainOutputLines d = .ok ls → (mainRun (.body d) f).exitCode = 0) ∧
    (∀ e, mainOutputLines d = .error e → (mainRun (.body d) f).exitCode = 1) := by
  refine ⟨by cases rt <;> rfl, rfl, ?_, ?_⟩
  · intro ls h
    cases f <;> simp [mainRun, h]
  · intro e h
    simp [mainRun, h]

/-- Witness for C5: a successful zero-conversation run exits 0; a body whose
formatting raises (a list containing a number) exits 1. -/
theorem exit_code_spec_witness :
    (mainRun (.body (.num 1)) none).exitCode = 0 ∧
    (mainRun (.body (.arr [.num 5])) none).exitCode = 1 :=
  ⟨(exit_code_spec "m" "t" none none (.num 1)).2.2.1
      ["\nNo conversations found for the specified date range.",
       "\nRaw API Response:", "1"] (by rfl),
   (exit_code_spec "m" "t" none none (.arr [.num 5])).2.2.2
      (.attributeError "object has no attribute get") (by rfl)⟩

/-! ## C6 — fatal errors discard buffered output -/

/-- The strings `main` prints to stdout on its fatal-error paths. -/
def isErrorDiagnostic (s : String) : Bool :=
  strStarts s "Error fetching conversations: " ||
  strStarts s "Error parsing JSON response: " ||
  strStarts s "Raw response: " ||
  strStarts s "Unexpected error: "

theorem isErrorDiagnostic_http (s : String) :
    isErrorDiagnostic ("Error fetching conversations: " ++ s) = true := by
  simp [isErrorDiagnostic, strStarts_append]

theorem isErrorDiagnostic_json (s : String) :
    isErrorDiagnostic ("Error parsing JSON response: " ++ s) = true := by
  simp [isErrorDiagnostic, strStarts_append]

theorem isErrorDiagnostic_raw (s : String) :
    isErrorDiagnostic ("Raw response: " ++ s) = true := by
  simp [isErrorDiagnostic, strStarts_append]

theorem isErrorDiagnostic_unexpected (s : String) :
    isErrorDiagnostic ("Unexpected error: " ++ s) = true := by
  simp [isErrorDiagnostic, strStarts_append]

/-- C6: on every run that exits with status 1 the output file is never
written and everything printed to stdout is an error diagnostic — none of
the assembled transcript text escapes. -/
theorem fatal_error_discards (o : FetchOutcome) (f : Option String)
    (h : (mainRun o f).exitCode = 1) :
    (mainRun o f).fileWrites = [] ∧
    ∀ s ∈ (mainRun o f).printed, isErrorDiagnostic s = true := by
  cases o with
  | httpError m rt =>
    rcases rt with _ | t
    · refine ⟨rfl, ?_⟩
      intro s hs
      simp [mainRun] at hs
      subst hs
      exact isErrorDiagnostic_http m
    · refine ⟨rfl, ?_⟩
      intro s hs
      simp [mainRun] at hs
      subst hs
      rw [String.append_assoc, String.append_assoc]
      exact isErrorDiagnostic_http _
  | jsonError m t =>
    refine ⟨rfl, ?_⟩
    intro s hs
    simp [mainRun] at hs
    rcases hs with h1 | h1 <;> subst h1
    · exact isErrorDiagnostic_json m
    · exact isErrorDiagnostic_raw t
  | body d =>
    rcases h2 : mainOutputLines d with e | ls
    · refine ⟨by simp [mainRun, h2], ?_⟩
      intro s hs
      simp [mainRun, h2] at hs
      subst hs
      exact isErrorDiagnostic_unexpected _
    · exfalso
      cases f <;> simp [mainRun, h2] at h

/-- Witness for C6 at a concrete HTTP failure. -/
theorem fatal_error_discards_witness :
    (mainRun (.httpError "boom" none) none).exitCode = 1 ∧
    ((mainRun (.httpError "boom" none) none).fileWrites = [] ∧
     ∀ s ∈ (mainRun (.httpError "boom" none) none).printed,
       isErrorDiagnostic s = true) :=
  ⟨by rfl, fatal_error_discards (.httpError "boom" none) none (by rfl)⟩

/-! ## C7 — file output equals stdout output -/

/-- C7: on every successful run, invoking with an output file writes exactly
the text that the file-less invocation prints, exits 0, and prints only the
confirmation line naming the file. -/
theorem output_file_equiv (o : FetchOutcome) (f : String)
    (h : (mainRun o none).exitCode = 0) :
    ∃ t, (mainRun o none).printed = [t] ∧
      (mainRun o (some f)).exitCode = 0 ∧
      (mainRun o (some f)).fileWrites = [(f, t)] ∧
      (mainRun o (some f)).printed = ["\n✓ Formatted transcripts saved to: " ++ f] := by
  cases o with
  | httpError m rt => rcases rt with _ | t <;> simp [mainRun] at h
  | jsonError m t => simp [mainRun] at h
  | body d =>
    rcases h2 : mainOutputLines d with e | ls
    · simp [mainRun, h2] at h
    · exact ⟨String.intercalate "\n" ls, by simp [mainRun, h2],
        by simp [mainRun, h2], by simp [mainRun, h2], by simp [mainRun, h2]⟩

/-- Witness for C7 at a concrete successful run. -/
theorem output_file_equiv_witness :
    (mainRun (.body (.num 1)) none).exitCode = 0 ∧
    ∃ t, (mainRun (.body (.num 1)) none).printed = [t] ∧
      (mainRun (.body (.num 1)) (some "out.txt")).exitCode = 0 ∧
      (mainRun (.body (.num 1)) (some "out.txt")).fileWrites = [("out.txt", t)] ∧
      (mainRun (.body (.num 1)) (some "out.txt")).printed =
        ["\n✓ Formatted transcripts saved to: " ++ "out.txt"] :=
  ⟨by rfl, output_file_equiv (.body (.num 1)) "out.txt" (by rfl)⟩

/-! ## C8 — speaker labels -/

theorem exPure {α : Type} (a : α) : (pure a : Except PyErr α) = .ok a := rfl

/-- C8: the speaker label comes from the `role` string (priority) or else
the `sender` string (else `"unknown"`), lower-cased; `user`/`human` map to
`USER`, `assistant`/`bot`/`ai`/`agent` map to `BOT`, and anything else maps
to the original string upper-cased. -/
theorem speaker_label_spec (kvs : List (String × Json)) (r : String) :
    (jLookup kvs "role" = some (.str r) →
      messageSpeaker (.obj kvs) = .ok (
        if ["user", "human"].contains (pyStrLower r) then "USER"
        else if ["assistant", "bot", "ai", "agent"].contains (pyStrLower r) then "BOT"
        else pyStrUpper r)) ∧
    (jLookup kvs "role" = none → jLookup kvs "sender" = some (.str r) →
      messageSpeaker (.obj kvs) = .ok (
        if ["user", "human"].contains (pyStrLower r) then "USER"
        else if ["assistant", "bot", "ai", "agent"].contains (pyStrLower r) then "BOT"
        else pyStrUpper r)) ∧
    (jLookup kvs "role" = none → jLookup kvs "sender" = none →
      messageSpeaker (.obj kvs) = .ok "UNKNOWN") := by
  refine ⟨?_, ?_, ?_⟩
  · intro h1
    simp [messageSpeaker, pyGet, pyLower, h1, exBindOk, exPure, pyStrUpper_pyStrLower]
  · intro h1 h2
    simp [messageSpeaker, pyGet, pyLower, h1, h2, exBindOk, exPure, pyStrUpper_pyStrLower]
  · intro h1 h2
    simp [messageSpeaker, pyGet, pyLower, h1, h2, exBindOk, exPure]
    rfl

/-- Witness for C8: `role: "Human"` gives USER, `sender: "bot"` gives BOT,
`role: "moderator"` gives MODERATOR, and no key gives UNKNOWN. -/
theorem speaker_label_spec_witness :
    messageSpeaker (.obj [("role", .str "Human")]) = .ok "USER" ∧
    messageSpeaker (.obj [("sender", .str "bot")]) = .ok "BOT" ∧
    messageSpeaker (.obj [("role", .str "moderator")]) = .ok "MODERATOR" ∧
    messageSpeaker (.obj []) = .ok "UNKNOWN" := by
  refine ⟨?_, ?_, ?_, ?_⟩
  · rw [(speaker_label_spec [("role", .str "Human")] "Human").1 (by rfl)]
    rfl
  · rw [(speaker_label_spec [("sender", .str "bot")] "bot").2.1 (by rfl) (by rfl)]
    rfl
  · rw [(speaker_label_spec [("role", .str "moderator")] "moderator").1 (by rfl)]
    rfl
  · exact (speaker_label_spec [] "").2.2 (by rfl) (by rfl)

/-! ## C9 — empty message list -/

theorem ne_transcript_of_first (p s : String) (a : Char) (lp : List Char)
    (hp : p.data = a :: lp) (ha : a ≠ 'T') : p ++ s ≠ "TRANSCRIPT:" :=
  str_append_ne_of_first p s _ a 'T' lp "RANSCRIPT:".data hp rfl ha

theorem ne_dash80_of_first (p s : String) (a : Char) (lp : List Char)
    (hp : p.data = a :: lp) (ha : a ≠ '-') : p ++ s ≠ dash80 :=
  str_append_ne_of_first p s _ a '-' lp (List.replicate 79 '-') hp rfl ha

/-- Every line of the header block differs from the transcript header and
from the separator rule (each header line is a known prefix followed by
arbitrary rendered text, and no prefix starts with `T` or `-`). -/
theorem headerList_ne (kvs : List (String × Json)) :
    ∀ x ∈ headerList kvs, x ≠ "TRANSCRIPT:" ∧ x ≠ dash80 := by
  intro x hx
  unfold headerList at hx
  simp only [List.mem_append, List.mem_cons, List.not_mem_nil, or_false] at hx
  rcases hx with ((((h | h | h) | h) | h) | h) | h
  · subst h
    exact ⟨by decide, by decide⟩
  · subst h
    exact ⟨ne_transcript_of_first _ _ 'C' _ rfl (by decide),
           ne_dash80_of_first _ _ 'C' _ rfl (by decide)⟩
  · subst h
    exact ⟨ne_transcript_of_first _ _ 'S' _ rfl (by decide),
           ne_dash80_of_first _ _ 'S' _ rfl (by decide)⟩
  · rcases hc : jLookup kvs "createdAt" with _ | v <;> rw [hc] at h
    · simp at h
    · simp at h
      subst h
      exact ⟨ne_transcript_of_first _ _ 'S' _ rfl (by decide),
             ne_dash80_of_first _ _ 'S' _ rfl (by decide)⟩
  · rcases hc : jLookup kvs "updatedAt" with _ | v <;> rw [hc] at h
    · simp at h
    · simp at h
      subst h
      exact ⟨ne_transcript_of_first _ _ 'L' _ rfl (by decide),
             ne_dash80_of_first _ _ 'L' _ rfl (by decide)⟩
  · rcases hc : jLookup kvs "source" with _ | v <;> rw [hc] at h
    · simp at h
    · simp at h
      subst h
      exact ⟨ne_transcript_of_first _ _ 'S' _ rfl (by decide),
             ne_dash80_of_first _ _ 'S' _ rfl (by decide)⟩
  · rcases hc : jLookup kvs "userId" with _ | v <;> rw [hc] at h
    · simp at h
    · simp at h
      subst h
      exact ⟨ne_transcript_of_first _ _ 'U' _ rfl (by decide),
             ne_dash80_of_first _ _ 'U' _ rfl (by decide)⟩

/-- C9: a conversation whose resolved message list is empty renders a block
containing the literal line `No transcript available.`, with no
`TRANSCRIPT:` header and no separator rule. -/
theorem no_transcript_block (kvs : List (String × Json))
    (h : resolveMessages (.obj kvs) = .ok (.arr [])) :
    ∃ ls, format_conversation_lines (.obj kvs) = .ok ls ∧
      "No transcript available." ∈ ls ∧
      "TRANSCRIPT:" ∉ ls ∧ dash80 ∉ ls := by
  refine ⟨headerList kvs ++ [sep80, "", "No transcript available.", "", ""],
    ?_, ?_, ?_, ?_⟩
  · simp [format_conversation_lines, headerLines, h, exBindOk, exPure,
      transcriptLines, Json.truthy]
  · exact List.mem_append.2 (Or.inr (by decide))
  · intro hm
    rcases List.mem_append.1 hm with hh | ht
    · exact (headerList_ne kvs _ hh).1 rfl
    · exact absurd ht (by decide)
  · intro hm
    rcases List.mem_append.1 hm with hh | ht
    · exact (headerList_ne kvs _ hh).2 rfl
    · exact absurd ht (by decide)

/-- Witness for C9: both keys absent (list resolves to the empty default). -/
theorem no_transcript_block_witness :
    resolveMessages (.obj [("id", .str "c1")]) = .ok (.arr []) ∧
    ∃ ls, format_conversation_lines (.obj [("id", .str "c1")]) = .ok ls ∧
      "No transcript available." ∈ ls ∧
      "TRANSCRIPT:" ∉ ls ∧ dash80 ∉ ls :=
  ⟨by rfl, no_transcript_block [("id", .str "c1")] (by rfl)⟩

/-! ## C2 — messages / transcript precedence -/

/-- Counterexample to C2 as stated: two conversations that both contain a
`messages` key (value `[]`) and differ only in their `transcript` value
render differently, because line 43 falls back to `transcript` whenever the
`messages` value is falsy — not merely when the key is absent. -/
theorem transcript_dependence_cex :
    (format_conversation (.obj [("messages", .arr []),
      ("transcript", .arr [.obj [("role", .str "user"), ("content", .str "hi")]])])).toOption ≠
    (format_conversation (.obj [("messages", .arr []),
      ("transcript", .arr [])])).toOption := by
  decide

/-- C2 amended: whenever a conversation's `messages` value is present and
truthy (e.g. a non-empty list), the rendered output does not depend on the
`transcript` value: any two conversations agreeing on every key except
`transcript` render identically. -/
theorem transcript_independent (kvs1 kvs2 : List (String × Json)) (v : Json)
    (hagree : ∀ k, k ≠ "transcript" → jLookup kvs1 k = jLookup kvs2 k)
    (hm : jLookup kvs1 "messages" = some v) (hv : v.truthy = true) :
    format_conversation (.obj kvs1) = format_conversation (.obj kvs2) := by
  have hm2 : jLookup kvs2 "messages" = some v := by
    rw [← hagree "messages" (by decide)]
    exact hm
  have hh : headerList kvs1 = headerList kvs2 := by
    unfold headerList
    rw [hagree "id" (by decide), hagree "sessionId" (by decide),
        hagree "createdAt" (by decide), hagree "updatedAt" (by decide),
        hagree "source" (by decide), hagree "userId" (by decide)]
  have hr1 : resolveMessages (.obj kvs1) = .ok v := by
    simp [resolveMessages, pyGet, hm, exBindOk, hv, exPure]
  have hr2 : resolveMessages (.obj kvs2) = .ok v := by
    simp [resolveMessages, pyGet, hm2, exBindOk, hv, exPure]
  unfold format_conversation format_conversation_lines
  rw [show headerLines (.obj kvs1) = .ok (headerList kvs1) from rfl,
      show headerLines (.obj kvs2) = .ok (headerList kvs2) from rfl,
      hh, hr1, hr2]

/-- Witness for the amended C2: same truthy `messages`, different
`transcript` values, identical output. -/
theorem transcript_independent_witness :
    (∀ k, k ≠ "transcript" →
      jLookup [("messages", .arr [.obj [("role", .str "user")]]), ("transcript", .str "A")] k =
      jLookup [("messages", .arr [.obj [("role", .str "user")]]), ("transcript", .str "B")] k) ∧
    format_conversation (.obj [("messages", .arr [.obj [("role", .str "user")]]),
      ("transcript", .str "A")]) =
    format_conversation (.obj [("messages", .arr [.obj [("role", .str "user")]]),
      ("transcript", .str "B")]) := by
  have hag : ∀ k, k ≠ "transcript" →
      jLookup [("messages", .arr [.obj [("role", .str "user")]]), ("transcript", .str "A")] k =
      jLookup [("messages", .arr [.obj [("role", .str "user")]]), ("transcript", .str "B")] k := by
    intro k hk
    have h2 : ("transcript" = k) = False := eq_false fun h => hk h.symm
    by_cases h1 : "messages" = k
    · simp [jLookup, h1]
    · simp [jLookup, h1, h2]
  exact ⟨hag, transcript_independent _ _ (.arr [.obj [("role", .str "user")]])
    hag (by rfl) (by rfl)⟩

/-! ## C1 — the empty-mapping body -/

/-- Counterexample to C1 as stated: feeding `\x7b\x7d` does *not* produce the
"No conversations found" notice — lines 122-124 treat a mapping with
neither `conversations` nor `data` key as a single conversation, so the
output is the `FOUND 1 CONVERSATION(S)` banner and one conversation block. -/
theorem empty_mapping_cex :
    ∃ out, (mainRun (.body (.obj [])) none).printed = [out] ∧
      strContainsSub out "No conversations found" = false ∧
      strContainsSub out "FOUND 1 CONVERSATION(S)" = true :=
  ⟨(mainRun (.body (.obj [])) none).printed.headD "",
   by rfl, by decide, by decide⟩

/-- C1 amended: feeding `\x7b\x7d` yields exactly one conversation (the empty
mapping itself): the output shows the `FOUND 1 CONVERSATION(S)` banner and a
block with conversation id `N/A` and `No transcript available.`.  The
"No conversations found" notice followed by the indent-2 dump of the raw
body appears only when normalization yields zero conversations, e.g. for
the body `\x7b"conversations": []\x7d`. -/
theorem empty_mapping_amended :
    (∃ out, (mainRun (.body (.obj [])) none).printed = [out] ∧
      strContainsSub out "FOUND 1 CONVERSATION(S)" = true ∧
      strContainsSub out "CONVERSATION ID: N/A" = true ∧
      strContainsSub out "No transcript available." = true) ∧
    (mainRun (.body (.obj [("conversations", .arr [])])) none).printed =
      ["\nNo conversations found for the specified date range.\n\nRaw API Response:\n\x7b\n  \"conversations\": []\n\x7d"] := by
  refine ⟨⟨(mainRun (.body (.obj [])) none).printed.headD "",
    by rfl, by decide, by decide, by decide⟩, by rfl⟩
